import Mathlib

/-!
Verification of the opex-agent workflow-document generation pipeline.

This development shallowly embeds the pipeline stages of `nodes.py`, the
orchestrator graph of `agent.py` (`build_agent` / `should_iterate`) and the
SSE streaming generator of `server.py` (`_sse_event_stream`).  The text
generation gateway (`_invoke_llm`) is modelled as an oracle
`step_key → prompt → raw response`; the stages apply the same post
processing (`.strip()`) as the source.  Machine effects are explicit:
each stage returns either an error (a raised Python exception) or the
updated context together with the list of external calls it made.
-/

namespace OpexAgent

/-- Role-tagged chat message (`HumanMessage` / `AIMessage`). -/
inductive Msg
  | human (text : String)
  | ai (text : String)
  deriving DecidableEq, Repr

/-- The `.content` accessor of a message. -/
def Msg.content : Msg → String
  | .human t => t
  | .ai t => t

/-- The shared revision state (`Context` in `context.py`): `MessagesState`
plus `diagram`, `document` and `is_satisfied`.  `none` models an absent
key in the state dict (reading it raises `KeyError`). -/
structure Ctx where
  messages : List Msg
  diagram : Option String := none
  document : Option String := none
  is_satisfied : Bool := false
  deriving DecidableEq, Repr

/-- Errors a stage can raise.  `noMessages` is the
`ValueError("No messages found in context.")` guard, `indexOutOfRange`
is a Python `IndexError` from a negative list index, `keyError` is a
Python `KeyError` from reading an absent state key, `missingDiagram` is
the `ValueError("No diagram found in context. ...")` precondition of the
document generator, and `missingArtifact` is the
`ValueError("Missing document or diagram ...")` guard of the validator,
the two revisers and the dispatch stage. -/
inductive Err
  | noMessages
  | indexOutOfRange
  | keyError (field : String)
  | missingDiagram
  | missingArtifact
  deriving DecidableEq, Repr

/-- An external call performed by a stage: either a generation-gateway
call (`_invoke_llm`, tagged with its step key) or an invocation of a
registered external action tool. -/
inductive Call
  | llm (step : String) (prompt : String)
  | externalTool (payload : String)
  deriving DecidableEq, Repr

/-- Whether a call is an external action-tool invocation. -/
def Call.isExternalTool : Call → Bool
  | .externalTool _ => true
  | .llm _ _ => false

/-- The generation gateway: step key and prompt to raw response text. -/
abbrev Oracle := String → String → String

/-- Python `str.strip()`: drop whitespace from both ends. -/
def pyStrip (s : String) : String :=
  String.mk (((s.data.dropWhile Char.isWhitespace).reverse.dropWhile
    Char.isWhitespace).reverse)

/-- Python `str.lower()`. -/
def pyLower (s : String) : String :=
  String.mk (s.data.map Char.toLower)

/-- Does `small` lead (start) `big`? -/
def leadsWith : List Char → List Char → Bool
  | [], _ => true
  | _ :: _, [] => false
  | a :: as, b :: bs => a == b && leadsWith as bs

/-- Does `needle` occur as a contiguous run inside `hay`? -/
def holdsSub (needle : List Char) : List Char → Bool
  | [] => needle.isEmpty
  | c :: rest => leadsWith needle (c :: rest) || holdsSub needle (rest)

/-- Python substring test `needle in hay`. -/
def pyIn (needle hay : String) : Bool :=
  holdsSub needle.data hay.data

/-- Python negative indexing `l[-k]` (for `k ≥ 1`): defined exactly when
`k ≤ len(l)`, otherwise an `IndexError` is raised by the caller. -/
def pyNegIdx (l : List α) (k : Nat) : Option α :=
  if k ≤ l.length then l.get? (l.length - k) else none

/-- `_invoke_llm(prompt, step_key)`: call the gateway and `.strip()` the
concatenated response. -/
def invokeLLM (g : Oracle) (step : String) (prompt : String) : String :=
  pyStrip (g step prompt)

/-- The intent-parser prompt (`PROMPT_INTENT_PARSER` in `nodes.py`). -/
def PROMPT_INTENT_PARSER (user_message : String) : String :=
  "You are an expert workflow architect tasked with understanding user intent and improving clarity.\n\nGiven an input message from a user describing a desired process, rewrite the message to be:\n- Clear, concise, and professional\n- Grammatically correct and easy to interpret\n- Structured in a way suitable for automated process generation\n\nInstructions:\n1. Identify what type of process the user is requesting (e.g., onboarding, training, SOP, approval, etc.).\n2. Rewrite the message in a way that makes the intent explicit.\n3. Preserve all relevant details but remove filler, slang, or ambiguous phrasing.\n4. Output only the improved message.\n\nExample:\nInput: \"hey can u make me an onboarding thing for new hires\"\nOutput: \"Create an onboarding workflow for new employees, outlining required steps and resources.\"\n\n---\n\nNow process the following message:\n" ++ user_message

/-- The diagram-generation prompt (`PROMPT_PROCESS_DIAGRAM`). -/
def PROMPT_PROCESS_DIAGRAM (optimized_message : String) : String :=
  "You are a workflow visualization expert.\nYour task is to generate a structured **process diagram outline**\nthat clearly represents the following workflow description.\n\nThe diagram should:\n- Identify key **stages**, **decisions**, and **actions**\n- Be structured as labeled nodes and arrows\n- Use concise, professional naming\n- Use clear formatting that can be easily converted into a visual flowchart\n  (e.g., Mermaid, PlantUML, or bullet-step hierarchy)\n\nExample (Mermaid syntax):\n```mermaid\nflowchart TD\n    Start --> Gather_Requirements\n    Gather_Requirements --> Approval\n    Approval -->|Approved| Implementation\n    Approval -->|Rejected| Revision\n    Implementation --> Review\n    Review --> End\n```\n\n---\nWorkflow description:\n" ++ optimized_message

/-- The document-writer prompt (`PROMPT_DOCUMENT_WRITER`). -/
def PROMPT_DOCUMENT_WRITER (optimized_message mermaid_diagram : String) : String :=
  "You are a technical writer tasked with producing a professional process document\nfrom both a workflow description and its MermaidJS diagram.\n\nYour goals:\n- Transform the optimized workflow prompt and diagram into a structured, written process guide.\n- Include section headings, step-by-step explanations, and clear transition logic.\n- Keep it factual and actionable, suitable for documentation or training manuals.\n- Use the diagram as reference for step order and decision branches.\n- Avoid repeating the Mermaid code verbatim — interpret it into prose.\n\n---\nOptimized Workflow Description:\n" ++ optimized_message ++ "\n\nMermaidJS Diagram:\n```mermaid\n" ++ mermaid_diagram ++ "\n```\n\n---\nWrite the full document below:\n"

/-- The validation prompt (`PROMPT_VALIDATION`). -/
def PROMPT_VALIDATION (document diagram : String) : String :=
  "You are an expert workflow auditor and documentation reviewer.\n\nReview the following **process document** and **MermaidJS diagram** for quality and alignment.\n\nEvaluate on these criteria:\n1. **Consistency:** Do both describe the same workflow logically?\n2. **Completeness:** Are all key steps and decisions accounted for?\n3. **Clarity:** Is the document professional, well-structured, and understandable?\n4. **Diagram quality:** Does the Mermaid syntax appear valid and interpretable?\n\nFor each category, provide:\n- A rating from 1–5\n- A short justification\n\nFinally, decide:\n- **Overall Verdict:** \"Pass\" if the content is clear and consistent enough for automation, otherwise \"Fail\".\n- **Recommendations:** How to improve if needed.\n\n---\nDocument:\n" ++ document ++ "\n\n---\nMermaidJS Diagram:\n```mermaid\n" ++ diagram ++ "\n```\n"

/-- The diagram-revision prompt (`PROMPT_PROCESS_ITERATION`). -/
def PROMPT_PROCESS_ITERATION (document diagram last_message : String) : String :=
  "You are a workflow correction assistant.\n\nYour goal is to **revise the existing MermaidJS process diagram** so that it aligns more\nclosely with the written document and follows the recommendations below.\n\nGuidelines:\n- Only modify nodes, labels, or connections that address inconsistencies or omissions.\n- Keep valid structure and logic intact.\n- Maintain valid Mermaid syntax.\n- Ensure the new diagram accurately reflects all key stages and decisions in the document.\n\n---\nCurrent Document:\n" ++ document ++ "\n\n---\nCurrent Mermaid Diagram:\n```mermaid\n" ++ diagram ++ "\n```\n\n---\nValidation Feedback and Recommendations:\n" ++ last_message ++ "\n\n---\nOutput only the **revised MermaidJS diagram**.\n"

/-- The document-revision prompt (`PROMPT_DOC_ITERATION`). -/
def PROMPT_DOC_ITERATION (document diagram last_message : String) : String :=
  "You are a process documentation editor.\n\nYour task is to **revise the existing written document** so that it aligns perfectly\nwith the provided MermaidJS diagram and addresses the feedback below.\n\nGuidelines:\n- Preserve the overall meaning and structure of the original document.\n- Ensure every step, decision, or branch in the diagram is clearly reflected in the text.\n- Maintain professional tone, grammar, and clarity.\n- Incorporate any missing details mentioned in the recommendations.\n- Output only the revised document in markdown format.\n\n---\nCurrent Document:\n" ++ document ++ "\n\n---\nReference Mermaid Diagram:\n```mermaid\n" ++ diagram ++ "\n```\n\n---\nValidation Feedback and Recommendations:\n" ++ last_message ++ "\n\n---\nRevised Document:\n"

/-- The dispatch summary prompt (`summary_prompt` in `toolNode`). -/
def summary_prompt (document diagram : String) : String :=
  "You are a process automation agent delivering final outputs.\nCreate a concise response for the user that:\n- Summarizes the validated workflow in clear bullet points.\n- Embeds the Mermaid diagram code block.\n- Includes a short next-steps section with 2–3 actionable items.\n- Stays under 200 words overall.\n- Do NOT call any tools; only draft the response text.\n\nReference Document:\n" ++ document ++ "\n\nMermaid Diagram:\n```mermaid\n" ++ diagram ++ "\n```\n\nReturn the final response ready to send to the user.\n"

/-- `intentParserNode`: rewrite the latest user message via the gateway
and append the optimized message. -/
def intentParserNode (g : Oracle) (c : Ctx) : Except Err (Ctx × List Call) :=
  if c.messages.isEmpty then .error .noMessages
  else
    match pyNegIdx c.messages 1 with
    | none => .error .indexOutOfRange
    | some m =>
      let prompt := PROMPT_INTENT_PARSER m.content
      let optimized := invokeLLM g "intentParser" prompt
      .ok ({ c with messages := c.messages ++ [Msg.ai optimized] },
           [Call.llm "intentParser" prompt])

/-- `generateProcessDiagramNode`: generate a diagram outline from the
latest message, store it as `diagram` and append it. -/
def generateProcessDiagramNode (g : Oracle) (c : Ctx) :
    Except Err (Ctx × List Call) :=
  if c.messages.isEmpty then .error .noMessages
  else
    match pyNegIdx c.messages 1 with
    | none => .error .indexOutOfRange
    | some m =>
      let prompt := PROMPT_PROCESS_DIAGRAM m.content
      let outline := invokeLLM g "generateProcessDiagram" prompt
      .ok ({ c with diagram := some outline,
                    messages := c.messages ++ [Msg.ai outline] },
           [Call.llm "generateProcessDiagram" prompt])

/-- `generateDocumentNode`: read the optimized message at `messages[-2]`,
require a non-empty `diagram`, generate the document, store and append
it.  The `messages[-2]` access happens before the diagram guard, exactly
as in the source. -/
def generateDocumentNode (g : Oracle) (c : Ctx) :
    Except Err (Ctx × List Call) :=
  if c.messages.isEmpty then .error .noMessages
  else
    match pyNegIdx c.messages 2 with
    | none => .error .indexOutOfRange
    | some m =>
      match c.diagram with
      | none => .error (.keyError "diagram")
      | some d =>
        if d = "" then .error .missingDiagram
        else
          let prompt := PROMPT_DOCUMENT_WRITER m.content d
          let text := invokeLLM g "generateDocument" prompt
          .ok ({ c with document := some text,
                        messages := c.messages ++ [Msg.ai text] },
               [Call.llm "generateDocument" prompt])

/-- `validationNode`: review document and diagram, set `is_satisfied`
from a case-insensitive substring search for the marker `"pass"` in the
review text, append the review. -/
def validationNode (g : Oracle) (c : Ctx) : Except Err (Ctx × List Call) :=
  match c.document with
  | none => .error (.keyError "document")
  | some doc =>
    match c.diagram with
    | none => .error (.keyError "diagram")
    | some dia =>
      if doc = "" || dia = "" then .error .missingArtifact
      else
        let prompt := PROMPT_VALIDATION doc dia
        let review := invokeLLM g "validation" prompt
        let is_pass := pyIn "pass" (pyLower review)
        .ok ({ c with is_satisfied := is_pass,
                      messages := c.messages ++ [Msg.ai review] },
             [Call.llm "validation" prompt])

/-- `processIterationNode`: refine the diagram from the latest critique;
if validation already passed, append an informational note instead. -/
def processIterationNode (g : Oracle) (c : Ctx) :
    Except Err (Ctx × List Call) :=
  if c.messages.isEmpty then .error .noMessages
  else
    match pyNegIdx c.messages 1 with
    | none => .error .indexOutOfRange
    | some lastMsg =>
      if c.is_satisfied then
        .ok ({ c with messages :=
                 c.messages ++ [Msg.ai "Validation passed. No iteration required."] },
             [])
      else
        match c.document with
        | none => .error (.keyError "document")
        | some doc =>
          match c.diagram with
          | none => .error (.keyError "diagram")
          | some dia =>
            if doc = "" || dia = "" then .error .missingArtifact
            else
              let prompt := PROMPT_PROCESS_ITERATION doc dia lastMsg.content
              let revised := invokeLLM g "processIteration" prompt
              .ok ({ c with diagram := some revised,
                            messages := c.messages ++ [Msg.ai revised] },
                   [Call.llm "processIteration" prompt])

/-- `docIterationNode`: refine the document from the latest critique;
if validation already passed, append an informational note instead. -/
def docIterationNode (g : Oracle) (c : Ctx) :
    Except Err (Ctx × List Call) :=
  if c.messages.isEmpty then .error .noMessages
  else
    match pyNegIdx c.messages 1 with
    | none => .error .indexOutOfRange
    | some lastMsg =>
      if c.is_satisfied then
        .ok ({ c with messages :=
                 c.messages ++ [Msg.ai "Validation passed. No document iteration required."] },
             [])
      else
        match c.document with
        | none => .error (.keyError "document")
        | some doc =>
          match c.diagram with
          | none => .error (.keyError "diagram")
          | some dia =>
            if doc = "" || dia = "" then .error .missingArtifact
            else
              let prompt := PROMPT_DOC_ITERATION doc dia lastMsg.content
              let revised := invokeLLM g "docIteration" prompt
              .ok ({ c with document := some revised,
                            messages := c.messages ++ [Msg.ai revised] },
                   [Call.llm "docIteration" prompt])

/-- `toolNode`: draft the final delivery summary (embedding document and
diagram) via the generation gateway and append it.  The source makes no
external action-tool call here — the prompt even instructs the model not
to call tools. -/
def toolNode (g : Oracle) (c : Ctx) : Except Err (Ctx × List Call) :=
  match c.document with
  | none => .error (.keyError "document")
  | some doc =>
    match c.diagram with
    | none => .error (.keyError "diagram")
    | some dia =>
      if doc = "" || dia = "" then .error .missingArtifact
      else
        let prompt := summary_prompt doc dia
        let finalSummary := invokeLLM g "tools" prompt
        .ok ({ c with messages := c.messages ++ [Msg.ai finalSummary] },
             [Call.llm "tools" prompt])

/-- The named vertices of the `StateGraph` built by `build_agent`,
together with the framework `START` and `END` vertices. -/
inductive NodeName
  | graphStart
  | intentParser
  | generateProcessDiagram
  | generateDocument
  | validation
  | processIteration
  | docIteration
  | tools
  | graphEnd
  deriving DecidableEq, Repr

/-- `should_iterate` in `build_agent`: route from the validation vertex. -/
def should_iterate (c : Ctx) : String :=
  if c.is_satisfied then "tools" else "docIteration"

/-- The edge structure of `build_agent`: the unconditional `add_edge`
calls plus the conditional edge out of `validation` keyed by
`should_iterate`. -/
def nextNode : NodeName → Ctx → NodeName
  | .graphStart, _ => .intentParser
  | .intentParser, _ => .generateProcessDiagram
  | .generateProcessDiagram, _ => .generateDocument
  | .generateDocument, _ => .validation
  | .validation, c => if should_iterate c = "tools" then .tools else .docIteration
  | .docIteration, _ => .processIteration
  | .processIteration, _ => .validation
  | .tools, _ => .graphEnd
  | .graphEnd, _ => .graphEnd

/-- Execute the stage registered at a vertex (the `START`/`END` vertices
run no stage). -/
def runNode : NodeName → Oracle → Ctx → Except Err (Ctx × List Call)
  | .graphStart, _, c => .ok (c, [])
  | .intentParser, g, c => intentParserNode g c
  | .generateProcessDiagram, g, c => generateProcessDiagramNode g c
  | .generateDocument, g, c => generateDocumentNode g c
  | .validation, g, c => validationNode g c
  | .processIteration, g, c => processIterationNode g c
  | .docIteration, g, c => docIterationNode g c
  | .tools, g, c => toolNode g c
  | .graphEnd, _, c => .ok (c, [])

/-- Whether a vertex carries one of the seven pipeline stages. -/
def isStage : NodeName → Bool
  | .graphStart => false
  | .graphEnd => false
  | _ => true

/-- One orchestrator superstep: run the current vertex on the current
state, then follow the (possibly conditional) outgoing edge, which is
evaluated on the updated state. -/
def stepM (g : Oracle) (st : NodeName × Ctx) : Except Err (NodeName × Ctx) :=
  match runNode st.1 g st.2 with
  | .error e => .error e
  | .ok (c2, _) => .ok (nextNode st.1 c2, c2)

/-- Run `n` orchestrator supersteps. -/
def runFrom (g : Oracle) : Nat → NodeName × Ctx → Except Err (NodeName × Ctx)
  | 0, st => .ok st
  | n + 1, st =>
    match stepM g st with
    | .error e => .error e
    | .ok st2 => runFrom g n st2

/-- Run a given sequence of stages on a context (used to state the
history-growth invariant over arbitrary stage executions). -/
def runNodes (g : Oracle) : List NodeName → Ctx → Except Err Ctx
  | [], c => .ok c
  | n :: ns, c =>
    match runNode n g c with
    | .error e => .error e
    | .ok (c2, _) => runNodes g ns c2

/-- The initial revision state seeded by the server for a request: a
single human message holding the full prompt. -/
def initCtx (m : String) : Ctx :=
  { messages := [Msg.human m], diagram := none, document := none,
    is_satisfied := false }

/-- Classifier: the machine is still inside the revision cycle
(validation / document revision / diagram revision), i.e. it has neither
dispatched, terminated nor raised. -/
def inRevisionLoop (r : Except Err (NodeName × Ctx)) : Bool :=
  match r with
  | .ok (nd, _) =>
    nd == NodeName.validation || nd == NodeName.docIteration ||
      nd == NodeName.processIteration
  | .error _ => false

/-- The review text the validator computes for a context (matching the
prompt it builds from the current document and diagram). -/
def validationReview (g : Oracle) (c : Ctx) : String :=
  invokeLLM g "validation"
    (PROMPT_VALIDATION (c.document.getD "") (c.diagram.getD ""))

/-! ## The SSE streaming generator (`_sse_event_stream` in `server.py`)

A run of the compiled agent under `astream_events` is abstracted as a
script: the list of JSON payloads emitted as `status`/`chunk` frames
before the stream either completes (optionally having captured a final
state from the last node-end event) or raises, plus the result of the
fallback `agent.ainvoke` used when no final state was captured.  JSON
string escaping is abstracted (no claim depends on it). -/

/-- Script of one pipeline run as observed by the SSE generator. -/
structure RunScript where
  events : List String
  outcome : Except String (Option Ctx)
  fallback : Except String Ctx

/-- A frame of the SSE stream, before rendering to `data:` lines. -/
inductive Frame
  | event (json : String)
  | response (chat_session_id : String) (assistant_message : String)
      (document : Option String) (diagram : Option String)
      (messages : List String)
  | error (message : String)
  | done
  deriving DecidableEq, Repr

/-- JSON rendering of a string (escaping abstracted). -/
def jsonStr (s : String) : String := "\"" ++ s ++ "\""

/-- JSON rendering of an optional string (`None` renders as `null`). -/
def jsonOpt : Option String → String
  | none => "null"
  | some s => jsonStr s

/-- JSON rendering of a list of strings. -/
def jsonList (l : List String) : String :=
  "[" ++ String.intercalate ", " (l.map jsonStr) ++ "]"

/-- `json.dumps` of the terminal `response` payload. -/
def responseJson (chat_session_id assistant_message : String)
    (document diagram : Option String) (messages : List String) : String :=
  "\x7b\"type\": \"response\", \"chat_session_id\": " ++ jsonStr chat_session_id ++
    ", \"assistant_message\": " ++ jsonStr assistant_message ++
    ", \"document\": " ++ jsonOpt document ++
    ", \"diagram\": " ++ jsonOpt diagram ++
    ", \"messages\": " ++ jsonList messages ++ "\x7d"

/-- `json.dumps` of the `error` payload. -/
def errorJson (message : String) : String :=
  "\x7b\"type\": \"error\", \"message\": " ++ jsonStr message ++ "\x7d"

/-- Build the terminal `response` frame from a final state.  The state
schema drops the `chat_session_id` input key, so `final_state.get`
returns `None` and the body session id is used; `assistant_message` is
the serialized last message (empty when there are none). -/
def mkResponse (bodySession : String) (st : Ctx) : Frame :=
  Frame.response bodySession
    (match st.messages.getLast? with
     | some m => m.content
     | none => "")
    st.document st.diagram (st.messages.map Msg.content)

/-- The frame sequence produced by `_sse_event_stream` on a scripted
run: the event frames, then — from the `try`/`except`/`finally`
structure — either the single `error` frame (on a raise from the event
loop or the fallback invoke) or the single `response` frame, and finally
the `[DONE]` sentinel. -/
def sseEventStream (bodySession : String) (s : RunScript) : List Frame :=
  s.events.map Frame.event ++
    (match s.outcome with
     | .error msg => [Frame.error msg]
     | .ok (some st) => [mkResponse bodySession st]
     | .ok none =>
       match s.fallback with
       | .error msg => [Frame.error msg]
       | .ok st => [mkResponse bodySession st]) ++
    [Frame.done]

/-- Render a frame to its literal SSE wire form. -/
def renderFrame : Frame → String
  | Frame.done => "data: [DONE]\n\n"
  | Frame.event j => "data: " ++ j ++ "\n\n"
  | Frame.error msg => "data: " ++ errorJson msg ++ "\n\n"
  | Frame.response sess am doc dia msgs =>
    "data: " ++ responseJson sess am doc dia msgs ++ "\n\n"

/-- Whether a frame is an `error` frame. -/
def Frame.isError : Frame → Bool
  | Frame.error _ => true
  | _ => false

/-- Whether a frame is the terminal `response` frame. -/
def Frame.isResponse : Frame → Bool
  | Frame.response _ _ _ _ _ => true
  | _ => false

/-! ## Sample gateways and states used as concrete inputs -/

/-- A gateway that always answers `"Pass"`. -/
def oraclePass : Oracle := fun _ _ => "Pass"

/-- A gateway that always answers `"Fail"` (no pass token). -/
def oracleFail : Oracle := fun _ _ => "Fail"

/-- A gateway that always answers `"DOC TEXT"`. -/
def oracleDoc : Oracle := fun _ _ => "DOC TEXT"

/-- A state whose history holds exactly one message and no diagram. -/
def sampleOneMsg : Ctx := { messages := [Msg.human "make a workflow"] }

/-- A state with two history entries and a diagram. -/
def sampleTwoMsg : Ctx :=
  { messages := [Msg.human "req", Msg.ai "outline"], diagram := some "flowchart" }

/-- A complete but not yet satisfied state at the validation vertex. -/
def sampleUnsat : Ctx :=
  { messages := [Msg.ai "review"], diagram := some "flow", document := some "doc" }

/-- A complete, satisfied state. -/
def sampleSat : Ctx :=
  { messages := [Msg.ai "review"], diagram := some "flow",
    document := some "doc", is_satisfied := true }

/-- A satisfied state with an empty history. -/
def sampleSatEmpty : Ctx :=
  { messages := [], diagram := some "flow", document := some "doc",
    is_satisfied := true }

/-- `sampleSat` after the diagram reviser appends its informational note. -/
def sampleSatNote : Ctx :=
  { sampleSat with messages :=
      sampleSat.messages ++ [Msg.ai "Validation passed. No iteration required."] }

/-- `sampleUnsat` after the validator ran against `oraclePass`. -/
def sampleUnsatReviewed : Ctx :=
  { sampleUnsat with
    is_satisfied :=
      pyIn "pass" (pyLower (invokeLLM oraclePass "validation" (PROMPT_VALIDATION "doc" "flow"))),
    messages := sampleUnsat.messages ++
      [Msg.ai (invokeLLM oraclePass "validation" (PROMPT_VALIDATION "doc" "flow"))] }

/-- A scripted streaming run that raises with message `"boom"` after one
status event. -/
def sampleScript : RunScript :=
  { events := ["\x7b\"type\": \"status\", \"step\": \"validation\"\x7d"],
    outcome := Except.error "boom",
    fallback := Except.error "unused" }

/-! ## Symbolic trace of the straight-line prefix of a run -/

/-- Optimized message produced by the intent parser on a fresh run. -/
def stageText1 (g : Oracle) (m : String) : String :=
  invokeLLM g "intentParser" (PROMPT_INTENT_PARSER m)

/-- State after the intent parser on a fresh run. -/
def ctxAfterIntent (g : Oracle) (m : String) : Ctx :=
  { messages := [Msg.human m, Msg.ai (stageText1 g m)] }

/-- Diagram text produced by the diagram generator on a fresh run. -/
def stageText2 (g : Oracle) (m : String) : String :=
  invokeLLM g "generateProcessDiagram" (PROMPT_PROCESS_DIAGRAM (stageText1 g m))

/-- State after the diagram generator on a fresh run. -/
def ctxAfterDiagram (g : Oracle) (m : String) : Ctx :=
  { messages := [Msg.human m, Msg.ai (stageText1 g m), Msg.ai (stageText2 g m)],
    diagram := some (stageText2 g m) }

/-- Document text produced by the document generator on a fresh run. -/
def stageText3 (g : Oracle) (m : String) : String :=
  invokeLLM g "generateDocument"
    (PROMPT_DOCUMENT_WRITER (stageText1 g m) (stageText2 g m))

/-- State after the document generator on a fresh run. -/
def ctxAfterDocument (g : Oracle) (m : String) : Ctx :=
  { messages := [Msg.human m, Msg.ai (stageText1 g m), Msg.ai (stageText2 g m),
      Msg.ai (stageText3 g m)],
    diagram := some (stageText2 g m), document := some (stageText3 g m) }

/-- Review text produced by the validator on a fresh run. -/
def stageText4 (g : Oracle) (m : String) : String :=
  invokeLLM g "validation"
    (PROMPT_VALIDATION (stageText3 g m) (stageText2 g m))

/-- State after the validator on a fresh run. -/
def ctxAfterValidation (g : Oracle) (m : String) : Ctx :=
  { messages := [Msg.human m, Msg.ai (stageText1 g m), Msg.ai (stageText2 g m),
      Msg.ai (stageText3 g m), Msg.ai (stageText4 g m)],
    diagram := some (stageText2 g m), document := some (stageText3 g m),
    is_satisfied := pyIn "pass" (pyLower (stageText4 g m)) }

/-- Delivery summary produced by the dispatch stage on a fresh run. -/
def stageText5 (g : Oracle) (m : String) : String :=
  invokeLLM g "tools" (summary_prompt (stageText3 g m) (stageText2 g m))

/-- State after the dispatch stage on a fresh run. -/
def ctxAfterDispatch (g : Oracle) (m : String) : Ctx :=
  { messages := [Msg.human m, Msg.ai (stageText1 g m), Msg.ai (stageText2 g m),
      Msg.ai (stageText3 g m), Msg.ai (stageText4 g m), Msg.ai (stageText5 g m)],
    diagram := some (stageText2 g m), document := some (stageText3 g m),
    is_satisfied := pyIn "pass" (pyLower (stageText4 g m)) }

/-- The set of machine states visited by a fresh run whose validator
passes on first execution: the straight-line trace and its terminal
state. -/
def passTraceSet (g : Oracle) (m : String) (st : NodeName × Ctx) : Prop :=
  st = (NodeName.graphStart, initCtx m) ∨
  st = (NodeName.intentParser, initCtx m) ∨
  st = (NodeName.generateProcessDiagram, ctxAfterIntent g m) ∨
  st = (NodeName.generateDocument, ctxAfterDiagram g m) ∨
  st = (NodeName.validation, ctxAfterDocument g m) ∨
  st = (NodeName.tools, ctxAfterValidation g m) ∨
  st = (NodeName.graphEnd, ctxAfterDispatch g m)

/-! ## Revision-loop invariant -/

/-- The artifacts are present and non-empty and the history non-empty:
what the three loop stages need in order to run without raising. -/
def goodLoop (c : Ctx) : Prop :=
  (∃ d, c.diagram = some d ∧ d ≠ "") ∧
    (∃ t, c.document = some t ∧ t ≠ "") ∧ c.messages ≠ []

/-- Invariant of the revision cycle: the machine sits at one of the
three loop vertices with usable artifacts, and on entry to a reviser
the satisfaction flag is still false. -/
def loopInv (st : NodeName × Ctx) : Prop :=
  goodLoop st.2 ∧
    (st.1 = NodeName.validation ∨
      ((st.1 = NodeName.docIteration ∨ st.1 = NodeName.processIteration) ∧
        st.2.is_satisfied = false))

/-! ## Helper lemmas -/

theorem pyNegIdx_last {α : Type} (l : List α) (h : l ≠ []) :
    ∃ m, pyNegIdx l 1 = some m := by
  have hl : 0 < l.length := List.length_pos.mpr h
  refine ⟨l.get ⟨l.length - 1, by omega⟩, ?_⟩
  unfold pyNegIdx
  rw [if_pos (by omega),
    List.get?_eq_get (show l.length - 1 < l.length by omega)]

theorem pyNegIdx_some_ne_nil {α : Type} (l : List α) (k : Nat) (m : α)
    (h : pyNegIdx l k = some m) : l ≠ [] := by
  intro he; subst he; simp [pyNegIdx] at h

theorem pyNegIdx_isEmpty_false {α : Type} (l : List α) (k : Nat) (m : α)
    (h : pyNegIdx l k = some m) : l.isEmpty = false := by
  have := pyNegIdx_some_ne_nil l k m h
  cases l with
  | nil => simp at this
  | cons a as => rfl

theorem pyNegIdx_short (l : List α) (k : Nat) (h : l.length < k) :
    pyNegIdx l k = none := by
  unfold pyNegIdx; rw [if_neg (by omega)]

theorem leadsWith_append (l t : List Char) : leadsWith l (l ++ t) = true := by
  induction l with
  | nil => rfl
  | cons a as ih => simp [leadsWith, ih]

theorem holdsSub_nil_needle (l : List Char) : holdsSub [] l = true := by
  cases l with
  | nil => rfl
  | cons c rest => simp [holdsSub, leadsWith]

theorem holdsSub_append_middle (n l1 l2 : List Char) :
    holdsSub n (l1 ++ (n ++ l2)) = true := by
  induction l1 with
  | nil =>
    cases n with
    | nil => simpa using holdsSub_nil_needle l2
    | cons a as =>
      simp only [holdsSub, Bool.or_eq_true]
      left
      exact (show leadsWith (a :: as) ((a :: as) ++ l2) = true from
        leadsWith_append _ _)
  | cons c rest ih => simp [holdsSub, ih]

theorem pyIn_middle (a x b : String) : pyIn x (a ++ x ++ b) = true := by
  unfold pyIn
  have : (a ++ x ++ b).data = a.data ++ (x.data ++ b.data) := by
    simp [String.data_append]
  rw [this]
  exact holdsSub_append_middle x.data a.data b.data

theorem runFrom_graphEnd (g : Oracle) (k : Nat) (c : Ctx) :
    runFrom g k (NodeName.graphEnd, c) = .ok (NodeName.graphEnd, c) := by
  induction k with
  | zero => rfl
  | succ k ih => simpa [runFrom, stepM, runNode, nextNode] using ih

theorem runFrom_add (g : Oracle) (a b : Nat) (st : NodeName × Ctx) :
    runFrom g (a + b) st =
      match runFrom g b st with
      | .error e => .error e
      | .ok st2 => runFrom g a st2 := by
  induction b generalizing st with
  | zero => simp [runFrom]
  | succ b ih =>
    show runFrom g (a + b + 1) st = _
    match hs : stepM g st with
    | .error e => simp [runFrom, hs]
    | .ok st2 => simp [runFrom, hs, ih st2]

/-! ### Stage equation lemmas -/

theorem intentParserNode_ok (g : Oracle) (c : Ctx) (m : Msg)
    (hm : pyNegIdx c.messages 1 = some m) :
    intentParserNode g c =
      .ok ({ c with messages := c.messages ++
               [Msg.ai (invokeLLM g "intentParser" (PROMPT_INTENT_PARSER m.content))] },
           [Call.llm "intentParser" (PROMPT_INTENT_PARSER m.content)]) := by
  have he := pyNegIdx_isEmpty_false _ _ _ hm
  simp [intentParserNode, he, hm]

theorem generateProcessDiagramNode_ok (g : Oracle) (c : Ctx) (m : Msg)
    (hm : pyNegIdx c.messages 1 = some m) :
    generateProcessDiagramNode g c =
      .ok ({ c with
             diagram := some (invokeLLM g "generateProcessDiagram"
               (PROMPT_PROCESS_DIAGRAM m.content)),
             messages := c.messages ++
               [Msg.ai (invokeLLM g "generateProcessDiagram"
                 (PROMPT_PROCESS_DIAGRAM m.content))] },
           [Call.llm "generateProcessDiagram" (PROMPT_PROCESS_DIAGRAM m.content)]) := by
  have he := pyNegIdx_isEmpty_false _ _ _ hm
  simp [generateProcessDiagramNode, he, hm]

theorem generateDocumentNode_ok (g : Oracle) (c : Ctx) (m : Msg) (d : String)
    (hm : pyNegIdx c.messages 2 = some m) (hd : c.diagram = some d)
    (hdne : d ≠ "") :
    generateDocumentNode g c =
      .ok ({ c with
             document := some (invokeLLM g "generateDocument"
               (PROMPT_DOCUMENT_WRITER m.content d)),
             messages := c.messages ++
               [Msg.ai (invokeLLM g "generateDocument"
                 (PROMPT_DOCUMENT_WRITER m.content d))] },
           [Call.llm "generateDocument" (PROMPT_DOCUMENT_WRITER m.content d)]) := by
  have he := pyNegIdx_isEmpty_false _ _ _ hm
  simp [generateDocumentNode, he, hm, hd, hdne]

theorem validationNode_ok (g : Oracle) (c : Ctx) (t d : String)
    (ht : c.document = some t) (hd : c.diagram = some d)
    (htne : t ≠ "") (hdne : d ≠ "") :
    validationNode g c =
      .ok ({ c with
             is_satisfied :=
               pyIn "pass" (pyLower (invokeLLM g "validation" (PROMPT_VALIDATION t d))),
             messages := c.messages ++
               [Msg.ai (invokeLLM g "validation" (PROMPT_VALIDATION t d))] },
           [Call.llm "validation" (PROMPT_VALIDATION t d)]) := by
  simp [validationNode, ht, hd, htne, hdne]

theorem processIterationNode_sat (g : Oracle) (c : Ctx) (m : Msg)
    (hm : pyNegIdx c.messages 1 = some m) (hs : c.is_satisfied = true) :
    processIterationNode g c =
      .ok ({ c with messages := c.messages ++
               [Msg.ai "Validation passed. No iteration required."] }, []) := by
  have he := pyNegIdx_isEmpty_false _ _ _ hm
  simp [processIterationNode, he, hm, hs]

theorem processIterationNode_unsat (g : Oracle) (c : Ctx) (m : Msg) (t d : String)
    (hm : pyNegIdx c.messages 1 = some m) (hs : c.is_satisfied = false)
    (ht : c.document = some t) (hd : c.diagram = some d)
    (htne : t ≠ "") (hdne : d ≠ "") :
    processIterationNode g c =
      .ok ({ c with
             diagram := some (invokeLLM g "processIteration"
               (PROMPT_PROCESS_ITERATION t d m.content)),
             messages := c.messages ++
               [Msg.ai (invokeLLM g "processIteration"
                 (PROMPT_PROCESS_ITERATION t d m.content))] },
           [Call.llm "processIteration" (PROMPT_PROCESS_ITERATION t d m.content)]) := by
  have he := pyNegIdx_isEmpty_false _ _ _ hm
  simp [processIterationNode, he, hm, hs, ht, hd, htne, hdne]

theorem docIterationNode_sat (g : Oracle) (c : Ctx) (m : Msg)
    (hm : pyNegIdx c.messages 1 = some m) (hs : c.is_satisfied = true) :
    docIterationNode g c =
      .ok ({ c with messages := c.messages ++
               [Msg.ai "Validation passed. No document iteration required."] }, []) := by
  have he := pyNegIdx_isEmpty_false _ _ _ hm
  simp [docIterationNode, he, hm, hs]

theorem docIterationNode_unsat (g : Oracle) (c : Ctx) (m : Msg) (t d : String)
    (hm : pyNegIdx c.messages 1 = some m) (hs : c.is_satisfied = false)
    (ht : c.document = some t) (hd : c.diagram = some d)
    (htne : t ≠ "") (hdne : d ≠ "") :
    docIterationNode g c =
      .ok ({ c with
             document := some (invokeLLM g "docIteration"
               (PROMPT_DOC_ITERATION t d m.content)),
             messages := c.messages ++
               [Msg.ai (invokeLLM g "docIteration"
                 (PROMPT_DOC_ITERATION t d m.content))] },
           [Call.llm "docIteration" (PROMPT_DOC_ITERATION t d m.content)]) := by
  have he := pyNegIdx_isEmpty_false _ _ _ hm
  simp [docIterationNode, he, hm, hs, ht, hd, htne, hdne]

theorem holdsSub_append_left (n l1 l2 : List Char)
    (h : holdsSub n l2 = true) : holdsSub n (l1 ++ l2) = true := by
  induction l1 with
  | nil => simpa using h
  | cons c rest ih => simp [holdsSub, ih]

theorem pyIn_suffix (s x t : String) (h : pyIn x t = true) :
    pyIn x (s ++ t) = true := by
  unfold pyIn at h ⊢
  rw [String.data_append]
  exact holdsSub_append_left x.data s.data t.data h

theorem leadsWith_extend (n l u : List Char) (h : leadsWith n l = true) :
    leadsWith n (l ++ u) = true := by
  induction n generalizing l with
  | nil => rfl
  | cons a as ih =>
    cases l with
    | nil => exact absurd h (by simp [leadsWith])
    | cons b bs =>
      simp only [leadsWith, Bool.and_eq_true] at h ⊢
      exact ⟨h.1, ih bs h.2⟩

theorem holdsSub_extend (n l1 l2 : List Char) (h : holdsSub n l1 = true) :
    holdsSub n (l1 ++ l2) = true := by
  induction l1 with
  | nil =>
    simp only [holdsSub, List.isEmpty_eq_true] at h
    subst h
    exact holdsSub_nil_needle l2
  | cons c rest ih =>
    simp only [holdsSub, Bool.or_eq_true] at h ⊢
    rcases h with h | h
    · exact Or.inl (leadsWith_extend n (c :: rest) l2 h)
    · exact Or.inr (ih h)

theorem pyIn_extend (x s u : String) (h : pyIn x s = true) :
    pyIn x (s ++ u) = true := by
  unfold pyIn at h ⊢
  rw [String.data_append]
  exact holdsSub_extend x.data s.data u.data h

theorem pyIn_end (a x : String) : pyIn x (a ++ x) = true := by
  unfold pyIn
  rw [String.data_append]
  have := holdsSub_append_middle x.data a.data []
  simpa using this

theorem summary_prompt_embeds (t d : String) :
    pyIn t (summary_prompt t d) = true ∧ pyIn d (summary_prompt t d) = true := by
  unfold summary_prompt
  constructor
  · exact pyIn_extend _ _ _ (pyIn_extend _ _ _ (pyIn_extend _ _ _ (pyIn_end _ _)))
  · exact pyIn_middle _ _ _

theorem toolNode_ok (g : Oracle) (c : Ctx) (t d : String)
    (ht : c.document = some t) (hd : c.diagram = some d)
    (htne : t ≠ "") (hdne : d ≠ "") :
    toolNode g c =
      .ok ({ c with messages := c.messages ++
               [Msg.ai (invokeLLM g "tools" (summary_prompt t d))] },
           [Call.llm "tools" (summary_prompt t d)]) := by
  simp [toolNode, ht, hd, htne, hdne]

/-- Structural inversion of any successful vertex execution: each stage
appends exactly one message, and every vertex other than `validation`
leaves `is_satisfied` untouched. -/
theorem runNode_ok_shape (n : NodeName) (g : Oracle) (c c2 : Ctx) (cs : List Call)
    (h : runNode n g c = .ok (c2, cs)) :
    (isStage n = true → ∃ m, c2.messages = c.messages ++ [m]) ∧
    (n ≠ NodeName.validation → c2.is_satisfied = c.is_satisfied) := by
  cases n <;>
    simp only [runNode, intentParserNode, generateProcessDiagramNode,
      generateDocumentNode, validationNode, processIterationNode,
      docIterationNode, toolNode] at h
  all_goals repeat' split at h
  all_goals try exact Except.noConfusion h
  all_goals
    rw [Except.ok.injEq, Prod.mk.injEq] at h
    obtain ⟨h1, h2⟩ := h
    subst h1
  all_goals refine ⟨fun hst => ?_, fun hn => ?_⟩
  all_goals first
    | exact ⟨_, rfl⟩
    | rfl
    | simp [isStage] at hst
    | exact absurd rfl hn

/-! ## Claims -/

/-- Claim C10: on a state whose history has exactly one entry, the
document generator fails with an index-out-of-range error when reading
the second-to-last history entry — regardless of whether `diagram` is
set — so it has an undocumented precondition of at least two history
entries, and the missing-diagram guard is only reachable after that
index access succeeds. -/
theorem document_generator_singleton_history_index_error (g : Oracle) (c : Ctx)
    (h1 : c.messages.length = 1) :
    generateDocumentNode g c = .error Err.indexOutOfRange := by
  obtain ⟨a, ha⟩ := List.length_eq_one.mp h1
  have hne : c.messages.isEmpty = false := by rw [ha]; rfl
  have h2 : pyNegIdx c.messages 2 = none := pyNegIdx_short _ _ (by omega)
  simp [generateDocumentNode, hne, h2]

theorem document_generator_singleton_history_index_error_witness :
    generateDocumentNode oracleDoc
      { messages := [Msg.human "make a workflow"], diagram := some "flowchart TD" } =
      .error Err.indexOutOfRange :=
  document_generator_singleton_history_index_error oracleDoc _ (by rfl)

/-- Counterexample to claim C6 as stated: on a state whose diagram is
unset (absent) but whose history has a single entry, the document
generator raises the index error, not a missing-diagram precondition
error. -/
theorem document_generator_missing_diagram_counterexample :
    generateDocumentNode oracleDoc sampleOneMsg = .error Err.indexOutOfRange ∧
    Err.indexOutOfRange ≠ Err.keyError "diagram" ∧
    Err.indexOutOfRange ≠ Err.missingDiagram ∧
    sampleOneMsg.diagram = none :=
  ⟨rfl, by decide, by decide, rfl⟩

/-- Claim C6 (amended): for every state with at least two history
entries, if `diagram` is absent the document generator fails with a
key error on `diagram`, if it is empty it fails with the
missing-diagram precondition error — in both cases storing no document —
and when `diagram` is set non-empty it reads the normalized intent from
the second-to-last history entry, stores the generated text as
`document`, and appends it to history. -/
theorem document_generator_two_entry_behavior (g : Oracle) (c : Ctx) (m : Msg)
    (hm : pyNegIdx c.messages 2 = some m) :
    (c.diagram = none →
      generateDocumentNode g c = .error (Err.keyError "diagram")) ∧
    (c.diagram = some "" →
      generateDocumentNode g c = .error Err.missingDiagram) ∧
    (∀ d, c.diagram = some d → d ≠ "" →
      generateDocumentNode g c =
        .ok ({ c with
               document := some (invokeLLM g "generateDocument"
                 (PROMPT_DOCUMENT_WRITER m.content d)),
               messages := c.messages ++
                 [Msg.ai (invokeLLM g "generateDocument"
                   (PROMPT_DOCUMENT_WRITER m.content d))] },
             [Call.llm "generateDocument" (PROMPT_DOCUMENT_WRITER m.content d)])) := by
  have he := pyNegIdx_isEmpty_false _ _ _ hm
  refine ⟨fun hd => ?_, fun hd => ?_, fun d hd hdne => ?_⟩
  · simp [generateDocumentNode, he, hm, hd]
  · simp [generateDocumentNode, he, hm, hd]
  · exact generateDocumentNode_ok g c m d hm hd hdne

theorem document_generator_two_entry_behavior_witness :
    generateDocumentNode oracleDoc sampleTwoMsg =
      .ok ({ sampleTwoMsg with
             document := some (invokeLLM oracleDoc "generateDocument"
               (PROMPT_DOCUMENT_WRITER "req" "flowchart")),
             messages := sampleTwoMsg.messages ++
               [Msg.ai (invokeLLM oracleDoc "generateDocument"
                 (PROMPT_DOCUMENT_WRITER "req" "flowchart"))] },
           [Call.llm "generateDocument" (PROMPT_DOCUMENT_WRITER "req" "flowchart")]) :=
  (document_generator_two_entry_behavior oracleDoc sampleTwoMsg
    (Msg.human "req") rfl).2.2 "flowchart" rfl (by decide)

/-- Counterexample to claim C8 as stated: on a satisfied state with an
empty history, both revisers raise the no-messages error instead of
appending an informational note, because the `messages[-1]` read occurs
before the satisfaction guard. -/
theorem revisers_raise_on_empty_history :
    processIterationNode oracleDoc sampleSatEmpty = .error Err.noMessages ∧
    docIterationNode oracleDoc sampleSatEmpty = .error Err.noMessages ∧
    sampleSatEmpty.is_satisfied = true :=
  ⟨rfl, rfl, rfl⟩

/-- Claim C8 (amended): for every state with a non-empty history in
which `is_satisfied` is already true, the diagram reviser and the
document reviser are no-ops on the artifacts: each appends exactly one
informational note to history, leaves `diagram`, `document` and
`is_satisfied` unchanged, and performs no generation call. -/
theorem revisers_noop_when_satisfied (g : Oracle) (c : Ctx)
    (hne : c.messages ≠ []) (hs : c.is_satisfied = true) :
    processIterationNode g c =
      .ok ({ c with messages := c.messages ++
               [Msg.ai "Validation passed. No iteration required."] }, []) ∧
    docIterationNode g c =
      .ok ({ c with messages := c.messages ++
               [Msg.ai "Validation passed. No document iteration required."] }, []) := by
  obtain ⟨m, hm⟩ := pyNegIdx_last c.messages hne
  exact ⟨processIterationNode_sat g c m hm hs, docIterationNode_sat g c m hm hs⟩

theorem revisers_noop_when_satisfied_witness :
    processIterationNode oracleDoc sampleSat =
      .ok ({ sampleSat with messages := sampleSat.messages ++
               [Msg.ai "Validation passed. No iteration required."] }, []) ∧
    docIterationNode oracleDoc sampleSat =
      .ok ({ sampleSat with messages := sampleSat.messages ++
               [Msg.ai "Validation passed. No document iteration required."] }, []) :=
  revisers_noop_when_satisfied oracleDoc sampleSat (by decide) rfl

/-- Counterexample to claim C3 as stated: from the validation vertex
with `is_satisfied` false, the orchestrator routes first to the
document reviser (`docIteration`), not to the diagram reviser. -/
theorem validation_routes_to_document_reviser_first :
    should_iterate sampleUnsat = "docIteration" ∧
    nextNode NodeName.validation sampleUnsat = NodeName.docIteration ∧
    NodeName.docIteration ≠ NodeName.processIteration :=
  ⟨rfl, rfl, by decide⟩

/-- Claim C3 (amended): in every iteration of the revision loop, the
document reviser executes before the diagram reviser, and control then
returns to the validator; the step taken from the validation vertex
when `is_satisfied` is false goes first to the document-revision stage. -/
theorem revision_order_document_before_diagram (c : Ctx)
    (h : c.is_satisfied = false) :
    nextNode NodeName.validation c = NodeName.docIteration ∧
    (∀ c2 : Ctx, nextNode NodeName.docIteration c2 = NodeName.processIteration) ∧
    (∀ c2 : Ctx, nextNode NodeName.processIteration c2 = NodeName.validation) := by
  refine ⟨?_, fun c2 => rfl, fun c2 => rfl⟩
  simp [nextNode, should_iterate, h]

theorem revision_order_document_before_diagram_witness :
    nextNode NodeName.validation sampleUnsat = NodeName.docIteration ∧
    nextNode NodeName.docIteration sampleUnsat = NodeName.processIteration ∧
    nextNode NodeName.processIteration sampleUnsat = NodeName.validation :=
  ⟨(revision_order_document_before_diagram sampleUnsat rfl).1,
   (revision_order_document_before_diagram sampleUnsat rfl).2.1 sampleUnsat,
   (revision_order_document_before_diagram sampleUnsat rfl).2.2 sampleUnsat⟩

/-- Counterexample to claim C5 as stated: the dispatch stage performs
exactly one external call, and it is a generation-gateway call, not an
invocation of a registered external action tool. -/
theorem dispatch_invokes_no_external_tool :
    ((toolNode oracleDoc sampleSat).map fun r => r.2) =
      .ok [Call.llm "tools" (summary_prompt "doc" "flow")] ∧
    ((toolNode oracleDoc sampleSat).map fun r => r.2.any Call.isExternalTool) =
      .ok false :=
  ⟨rfl, rfl⟩

/-- Claim C5 (amended): the dispatch stage, reached when `is_satisfied`
is true, formats a delivery payload embedding the final document and
diagram and passes it to the generation gateway — not to any registered
external action tool — then appends the generated summary text as
exactly one new entry in history. -/
theorem dispatch_summary_via_gateway (g : Oracle) (c : Ctx) (t d : String)
    (ht : c.document = some t) (hd : c.diagram = some d)
    (htne : t ≠ "") (hdne : d ≠ "") :
    toolNode g c =
      .ok ({ c with messages := c.messages ++
               [Msg.ai (invokeLLM g "tools" (summary_prompt t d))] },
           [Call.llm "tools" (summary_prompt t d)]) ∧
    pyIn t (summary_prompt t d) = true ∧
    pyIn d (summary_prompt t d) = true ∧
    (Call.llm "tools" (summary_prompt t d)).isExternalTool = false :=
  ⟨toolNode_ok g c t d ht hd htne hdne, (summary_prompt_embeds t d).1,
   (summary_prompt_embeds t d).2, rfl⟩

theorem dispatch_summary_via_gateway_witness :
    toolNode oracleDoc sampleSat =
      .ok ({ sampleSat with messages := sampleSat.messages ++
               [Msg.ai (invokeLLM oracleDoc "tools" (summary_prompt "doc" "flow"))] },
           [Call.llm "tools" (summary_prompt "doc" "flow")]) ∧
    pyIn "doc" (summary_prompt "doc" "flow") = true ∧
    pyIn "flow" (summary_prompt "doc" "flow") = true ∧
    (Call.llm "tools" (summary_prompt "doc" "flow")).isExternalTool = false :=
  dispatch_summary_via_gateway oracleDoc sampleSat "doc" "flow" rfl rfl
    (by decide) (by decide)

/-- Claim C7: history is append-only — every successful stage execution
appends exactly one message (nothing is removed or mutated in place),
and after a sequence of N successful stage executions the history
length equals the initial length plus N, the initial history remaining
a prefix. -/
theorem history_append_only :
    (∀ (n : NodeName) (g : Oracle) (c c2 : Ctx) (cs : List Call),
      isStage n = true → runNode n g c = .ok (c2, cs) →
      ∃ m, c2.messages = c.messages ++ [m]) ∧
    (∀ (g : Oracle) (ns : List NodeName) (c c2 : Ctx),
      (∀ n ∈ ns, isStage n = true) → runNodes g ns c = .ok c2 →
      c2.messages.length = c.messages.length + ns.length ∧
      ∃ tail, c2.messages = c.messages ++ tail) := by
  have hA : ∀ (n : NodeName) (g : Oracle) (c c2 : Ctx) (cs : List Call),
      isStage n = true → runNode n g c = .ok (c2, cs) →
      ∃ m, c2.messages = c.messages ++ [m] :=
    fun n g c c2 cs hst h => (runNode_ok_shape n g c c2 cs h).1 hst
  refine ⟨hA, fun g ns => ?_⟩
  induction ns with
  | nil =>
    intro c c2 _ h
    simp only [runNodes] at h
    rw [Except.ok.injEq] at h
    subst h
    exact ⟨by simp, [], by simp⟩
  | cons n ns ih =>
    intro c c2 hst h
    simp only [runNodes] at h
    split at h
    · exact Except.noConfusion h
    · rename_i c3 cs heq
      obtain ⟨m, hm⟩ := hA n g c c3 cs (hst n (by simp)) heq
      obtain ⟨hlen, tail, htail⟩ := ih c3 c2 (fun x hx => hst x (by simp [hx])) h
      refine ⟨?_, [m] ++ tail, ?_⟩
      · rw [hlen, hm]; simp [List.length_append]; omega
      · rw [htail, hm]; simp

theorem history_append_only_witness :
    (∃ m, sampleSatNote.messages = sampleSat.messages ++ [m]) ∧
    (sampleSatNote.messages.length = sampleSat.messages.length + 1 ∧
      ∃ tail, sampleSatNote.messages = sampleSat.messages ++ tail) :=
  ⟨history_append_only.1 NodeName.processIteration oracleDoc sampleSat
     sampleSatNote [] (by decide) rfl,
   by
     have h := history_append_only.2 oracleDoc [NodeName.processIteration]
       sampleSat sampleSatNote (by decide) rfl
     simpa using h⟩

/-- One superstep from the validation vertex on a usable, unsatisfied
context under a gateway whose reviews never contain the pass token:
the machine moves to the document reviser. -/
theorem loop_step_validation (g : Oracle)
    (hV : ∀ p, pyIn "pass" (pyLower (invokeLLM g "validation" p)) = false)
    (c : Ctx) (t d : String)
    (ht : c.document = some t) (hd : c.diagram = some d)
    (htne : t ≠ "") (hdne : d ≠ "") :
    stepM g (NodeName.validation, c) =
      .ok (NodeName.docIteration,
        { c with
          is_satisfied := pyIn "pass"
            (pyLower (invokeLLM g "validation" (PROMPT_VALIDATION t d))),
          messages := c.messages ++
            [Msg.ai (invokeLLM g "validation" (PROMPT_VALIDATION t d))] }) := by
  have h := validationNode_ok g c t d ht hd htne hdne
  simp only [stepM, runNode, h, nextNode, should_iterate]
  simp [hV]

/-- Soundness of the revision-loop invariant for one superstep. -/
theorem loop_step (g : Oracle)
    (hV : ∀ p, pyIn "pass" (pyLower (invokeLLM g "validation" p)) = false)
    (hDI : ∀ p, invokeLLM g "docIteration" p ≠ "")
    (hPI : ∀ p, invokeLLM g "processIteration" p ≠ "")
    (nd : NodeName) (c : Ctx)
    (hgood : goodLoop c)
    (hnode : nd = NodeName.validation ∨
      ((nd = NodeName.docIteration ∨ nd = NodeName.processIteration) ∧
        c.is_satisfied = false)) :
    ∃ nd2 c2, stepM g (nd, c) = .ok (nd2, c2) ∧ goodLoop c2 ∧
      (nd2 = NodeName.validation ∨
        ((nd2 = NodeName.docIteration ∨ nd2 = NodeName.processIteration) ∧
          c2.is_satisfied = false)) := by
  obtain ⟨⟨d, hd, hdne⟩, ⟨t, ht, htne⟩, hm⟩ := hgood
  obtain ⟨mlast, hmlast⟩ := pyNegIdx_last c.messages hm
  rcases hnode with hval | ⟨hrev, hsat⟩
  · subst hval
    refine ⟨NodeName.docIteration, _,
      loop_step_validation g hV c t d ht hd htne hdne, ?_, ?_⟩
    · exact ⟨⟨d, by simpa using hd, hdne⟩, ⟨t, by simpa using ht, htne⟩, by simp⟩
    · exact Or.inr ⟨Or.inl rfl, by simp [hV]⟩
  · rcases hrev with hdoc | hproc
    · subst hdoc
      have h := docIterationNode_unsat g c mlast t d hmlast hsat ht hd htne hdne
      refine ⟨NodeName.processIteration,
        { c with
          document := some (invokeLLM g "docIteration"
            (PROMPT_DOC_ITERATION t d mlast.content)),
          messages := c.messages ++
            [Msg.ai (invokeLLM g "docIteration"
              (PROMPT_DOC_ITERATION t d mlast.content))] }, ?_, ?_, ?_⟩
      · simp only [stepM, runNode, h, nextNode]
      · exact ⟨⟨d, by simpa using hd, hdne⟩,
          ⟨invokeLLM g "docIteration" (PROMPT_DOC_ITERATION t d mlast.content),
            by simp, hDI _⟩, by simp⟩
      · exact Or.inr ⟨Or.inr rfl, by simpa using hsat⟩
    · subst hproc
      have h := processIterationNode_unsat g c mlast t d hmlast hsat ht hd htne hdne
      refine ⟨NodeName.validation,
        { c with
          diagram := some (invokeLLM g "processIteration"
            (PROMPT_PROCESS_ITERATION t d mlast.content)),
          messages := c.messages ++
            [Msg.ai (invokeLLM g "processIteration"
              (PROMPT_PROCESS_ITERATION t d mlast.content))] }, ?_, ?_, ?_⟩
      · simp only [stepM, runNode, h, nextNode]
      · exact ⟨⟨invokeLLM g "processIteration" (PROMPT_PROCESS_ITERATION t d mlast.content),
            by simp, hPI _⟩,
          ⟨t, by simpa using ht, htne⟩, by simp⟩
      · exact Or.inl rfl

/-- The revision-loop invariant is preserved by any number of
supersteps, and the machine never leaves the loop. -/
theorem loop_run (g : Oracle)
    (hV : ∀ p, pyIn "pass" (pyLower (invokeLLM g "validation" p)) = false)
    (hDI : ∀ p, invokeLLM g "docIteration" p ≠ "")
    (hPI : ∀ p, invokeLLM g "processIteration" p ≠ "") :
    ∀ (n : Nat) (nd : NodeName) (c : Ctx), goodLoop c →
      (nd = NodeName.validation ∨
        ((nd = NodeName.docIteration ∨ nd = NodeName.processIteration) ∧
          c.is_satisfied = false)) →
      inRevisionLoop (runFrom g n (nd, c)) = true := by
  intro n
  induction n with
  | zero =>
    intro nd c hg hdisj
    rcases hdisj with h | ⟨h | h, _⟩ <;> subst h <;> rfl
  | succ n ih =>
    intro nd c hg hdisj
    obtain ⟨nd2, c2, hstep, hg2, hdisj2⟩ :=
      loop_step g hV hDI hPI nd c hg hdisj
    simp only [runFrom, hstep]
    exact ih nd2 c2 hg2 hdisj2

/-- Claim C2: the source builds the graph with no iteration bound.  On
every run whose validation reviews never contain the pass token (and
whose revision outputs are non-empty), the orchestrator stays in the
`validation → docIteration → processIteration → validation` cycle for
every number of supersteps: it never dispatches, never terminates and
never raises — there is no maximum-iteration cap, contradicting the
claimed guarded termination. -/
theorem revision_loop_unbounded_without_pass (g : Oracle) (c : Ctx)
    (hV : ∀ p, pyIn "pass" (pyLower (invokeLLM g "validation" p)) = false)
    (hDI : ∀ p, invokeLLM g "docIteration" p ≠ "")
    (hPI : ∀ p, invokeLLM g "processIteration" p ≠ "")
    (hc : goodLoop c) :
    ∀ n : Nat, inRevisionLoop (runFrom g n (NodeName.validation, c)) = true :=
  fun n => loop_run g hV hDI hPI n NodeName.validation c hc (Or.inl rfl)

theorem revision_loop_unbounded_without_pass_witness :
    inRevisionLoop (runFrom oracleFail 10 (NodeName.validation, sampleUnsat)) = true :=
  revision_loop_unbounded_without_pass oracleFail sampleUnsat
    (fun _ => rfl)
    (fun _ => by show pyStrip "Fail" ≠ ""; decide)
    (fun _ => by show pyStrip "Fail" ≠ ""; decide)
    ⟨⟨"flow", rfl, by decide⟩, ⟨"doc", rfl, by decide⟩, by decide⟩ 10

/-- Superstep from the framework start vertex. -/
theorem pass_step_start (g : Oracle) (m : String) :
    stepM g (NodeName.graphStart, initCtx m) =
      .ok (NodeName.intentParser, initCtx m) := rfl

/-- Superstep executing the intent parser on a fresh run. -/
theorem pass_step_intent (g : Oracle) (m : String) :
    stepM g (NodeName.intentParser, initCtx m) =
      .ok (NodeName.generateProcessDiagram, ctxAfterIntent g m) := rfl

/-- Superstep executing the diagram generator on a fresh run. -/
theorem pass_step_diagram (g : Oracle) (m : String) :
    stepM g (NodeName.generateProcessDiagram, ctxAfterIntent g m) =
      .ok (NodeName.generateDocument, ctxAfterDiagram g m) := rfl

/-- Superstep executing the document generator on a fresh run. -/
theorem pass_step_document (g : Oracle) (m : String)
    (h2 : stageText2 g m ≠ "") :
    stepM g (NodeName.generateDocument, ctxAfterDiagram g m) =
      .ok (NodeName.validation, ctxAfterDocument g m) := by
  have h := generateDocumentNode_ok g (ctxAfterDiagram g m)
    (Msg.ai (stageText1 g m)) (stageText2 g m) rfl rfl h2
  simp only [stepM, runNode, h, nextNode]
  rfl

/-- Superstep executing the validator on a fresh run whose review
contains the pass token: control moves directly to the dispatch vertex. -/
theorem pass_step_validation (g : Oracle) (m : String)
    (h2 : stageText2 g m ≠ "") (h3 : stageText3 g m ≠ "")
    (hV : pyIn "pass" (pyLower (stageText4 g m)) = true) :
    stepM g (NodeName.validation, ctxAfterDocument g m) =
      .ok (NodeName.tools, ctxAfterValidation g m) := by
  have h := validationNode_ok g (ctxAfterDocument g m)
    (stageText3 g m) (stageText2 g m) rfl rfl h3 h2
  have hV2 : pyIn "pass" (pyLower (invokeLLM g "validation"
      (PROMPT_VALIDATION (stageText3 g m) (stageText2 g m)))) = true := hV
  simp only [stepM, runNode, h, nextNode, should_iterate]
  simp [hV2, ctxAfterValidation, ctxAfterDocument, stageText4]

/-- Superstep executing the dispatch stage on a fresh run. -/
theorem pass_step_tools (g : Oracle) (m : String)
    (h2 : stageText2 g m ≠ "") (h3 : stageText3 g m ≠ "") :
    stepM g (NodeName.tools, ctxAfterValidation g m) =
      .ok (NodeName.graphEnd, ctxAfterDispatch g m) := by
  have h := toolNode_ok g (ctxAfterValidation g m)
    (stageText3 g m) (stageText2 g m) rfl rfl h3 h2
  simp only [stepM, runNode, h, nextNode]
  rfl

/-- Superstep at the terminal vertex. -/
theorem pass_step_end (g : Oracle) (c : Ctx) :
    stepM g (NodeName.graphEnd, c) = .ok (NodeName.graphEnd, c) := rfl

/-- On a first-validation-pass run, the trace set is closed under
supersteps. -/
theorem pass_trace_closed (g : Oracle) (m : String)
    (h2 : stageText2 g m ≠ "") (h3 : stageText3 g m ≠ "")
    (hV : pyIn "pass" (pyLower (stageText4 g m)) = true)
    (st : NodeName × Ctx) (h : passTraceSet g m st) :
    ∃ st2, stepM g st = .ok st2 ∧ passTraceSet g m st2 := by
  rcases h with h | h | h | h | h | h | h <;> subst h
  · exact ⟨_, pass_step_start g m, Or.inr (Or.inl rfl)⟩
  · exact ⟨_, pass_step_intent g m, Or.inr (Or.inr (Or.inl rfl))⟩
  · exact ⟨_, pass_step_diagram g m, Or.inr (Or.inr (Or.inr (Or.inl rfl)))⟩
  · exact ⟨_, pass_step_document g m h2,
      Or.inr (Or.inr (Or.inr (Or.inr (Or.inl rfl))))⟩
  · exact ⟨_, pass_step_validation g m h2 h3 hV,
      Or.inr (Or.inr (Or.inr (Or.inr (Or.inr (Or.inl rfl)))))⟩
  · exact ⟨_, pass_step_tools g m h2 h3,
      Or.inr (Or.inr (Or.inr (Or.inr (Or.inr (Or.inr rfl)))))⟩
  · exact ⟨_, pass_step_end g _, Or.inr (Or.inr (Or.inr (Or.inr (Or.inr (Or.inr rfl)))))⟩

/-- On a first-validation-pass run, every number of supersteps stays in
the trace set. -/
theorem pass_trace_run (g : Oracle) (m : String)
    (h2 : stageText2 g m ≠ "") (h3 : stageText3 g m ≠ "")
    (hV : pyIn "pass" (pyLower (stageText4 g m)) = true) :
    ∀ (n : Nat) (st : NodeName × Ctx), passTraceSet g m st →
      ∃ st2, runFrom g n st = .ok st2 ∧ passTraceSet g m st2 := by
  intro n
  induction n with
  | zero => intro st h; exact ⟨st, rfl, h⟩
  | succ n ih =>
    intro st h
    obtain ⟨st2, hstep, h2set⟩ := pass_trace_closed g m h2 h3 hV st h
    simp only [runFrom, hstep]
    exact ih st2 h2set

/-- Claim C4: on every fresh run whose validator review contains the
pass token at its first (and only) execution — with the generated
diagram and document non-empty so the stages run — the orchestrator
steps from the validation vertex directly to the dispatch vertex,
reaches it after five supersteps, and at no number of supersteps is the
machine ever at the document-reviser or diagram-reviser vertex. -/
theorem first_pass_reaches_dispatch_without_revision (g : Oracle) (m : String)
    (h2 : stageText2 g m ≠ "") (h3 : stageText3 g m ≠ "")
    (hV : pyIn "pass" (pyLower (stageText4 g m)) = true) :
    stepM g (NodeName.validation, ctxAfterDocument g m) =
      .ok (NodeName.tools, ctxAfterValidation g m) ∧
    runFrom g 5 (NodeName.graphStart, initCtx m) =
      .ok (NodeName.tools, ctxAfterValidation g m) ∧
    (∀ (n : Nat) (nd : NodeName) (c : Ctx),
      runFrom g n (NodeName.graphStart, initCtx m) = .ok (nd, c) →
      nd ≠ NodeName.docIteration ∧ nd ≠ NodeName.processIteration) := by
  refine ⟨pass_step_validation g m h2 h3 hV, ?_, ?_⟩
  · simp only [runFrom, pass_step_start, pass_step_intent, pass_step_diagram,
      pass_step_document g m h2, pass_step_validation g m h2 h3 hV]
  · intro n nd c h
    obtain ⟨st2, hrun, hset⟩ := pass_trace_run g m h2 h3 hV n
      (NodeName.graphStart, initCtx m) (Or.inl rfl)
    rw [h] at hrun
    rw [Except.ok.injEq] at hrun
    subst hrun
    rcases hset with h | h | h | h | h | h | h <;>
      (rw [Prod.mk.injEq] at h; obtain ⟨h1, _⟩ := h; subst h1) <;>
      exact ⟨by decide, by decide⟩

theorem first_pass_reaches_dispatch_without_revision_witness :
    stepM oraclePass
        (NodeName.validation, ctxAfterDocument oraclePass "make an onboarding workflow") =
      .ok (NodeName.tools, ctxAfterValidation oraclePass "make an onboarding workflow") ∧
    (NodeName.tools ≠ NodeName.docIteration ∧
      NodeName.tools ≠ NodeName.processIteration) := by
  have T := first_pass_reaches_dispatch_without_revision oraclePass
    "make an onboarding workflow" (by decide) (by decide) (by decide)
  exact ⟨T.1, T.2.2 5 NodeName.tools _ T.2.1⟩

theorem strHead_append (a b : String) (c : Char)
    (h : a.data.head? = some c) : (a ++ b).data.head? = some c := by
  rw [String.data_append]
  cases ha : a.data with
  | nil => simp [ha] at h
  | cons x xs =>
    rw [ha] at h
    simpa using h

theorem data_frame_ne (x : String)
    (hx : x.data.head? = some (Char.ofNat 123)) :
    "data: " ++ x ++ "\n\n" ≠ "data: [DONE]\n\n" := by
  intro h
  have h2 := h.trans (show "data: [DONE]\n\n" = "data: " ++ "[DONE]" ++ "\n\n" from rfl)
  have h3 := congrArg String.data h2
  simp only [String.data_append, List.append_assoc] at h3
  have h4 := List.append_cancel_left h3
  have h5 := List.append_cancel_right h4
  rw [h5] at hx
  exact absurd hx (by decide)

theorem errorJson_head (msg : String) :
    (errorJson msg).data.head? = some (Char.ofNat 123) := by
  unfold errorJson
  apply strHead_append
  apply strHead_append
  decide

theorem responseJson_head (cid am : String) (doc dia : Option String)
    (msgs : List String) :
    (responseJson cid am doc dia msgs).data.head? = some (Char.ofNat 123) := by
  unfold responseJson
  repeat apply strHead_append
  decide

theorem renderFrame_event_ne_done (j : String)
    (h : j.data.head? = some (Char.ofNat 123)) :
    renderFrame (Frame.event j) ≠ "data: [DONE]\n\n" :=
  data_frame_ne j h

theorem renderFrame_error_ne_done (msg : String) :
    renderFrame (Frame.error msg) ≠ "data: [DONE]\n\n" :=
  data_frame_ne (errorJson msg) (errorJson_head msg)

theorem renderFrame_response_ne_done (cid am : String) (doc dia : Option String)
    (msgs : List String) :
    renderFrame (Frame.response cid am doc dia msgs) ≠ "data: [DONE]\n\n" :=
  data_frame_ne (responseJson cid am doc dia msgs)
    (responseJson_head cid am doc dia msgs)

/-- Core shape of any stream emission: events, one terminal payload
frame, then the sentinel. -/
theorem sse_core (events : List String) (mid : Frame)
    (hjson : ∀ j ∈ events, j.data.head? = some (Char.ofNat 123))
    (hmid_ne : mid ≠ Frame.done)
    (hmid_render : renderFrame mid ≠ "data: [DONE]\n\n") :
    (events.map Frame.event ++ [mid] ++ [Frame.done]).getLast? = some Frame.done ∧
    (events.map Frame.event ++ [mid] ++ [Frame.done]).count Frame.done = 1 ∧
    ((events.map Frame.event ++ [mid] ++ [Frame.done]).map renderFrame).getLast? =
      some "data: [DONE]\n\n" ∧
    ((events.map Frame.event ++ [mid] ++ [Frame.done]).map
        renderFrame).count "data: [DONE]\n\n" = 1 := by
  have hev : (events.map Frame.event).count Frame.done = 0 := by
    rw [List.count_eq_zero]
    simp
  have hevr : ∀ x ∈ (events.map Frame.event).map renderFrame,
      x ≠ "data: [DONE]\n\n" := by
    intro x hx
    simp only [List.mem_map] at hx
    obtain ⟨f, hf, hfx⟩ := hx
    obtain ⟨j, hj, hjf⟩ := hf
    subst hjf
    subst hfx
    exact renderFrame_event_ne_done j (hjson j hj)
  refine ⟨?_, ?_, ?_, ?_⟩
  · simp [List.getLast?_append]
  · rw [List.count_append, List.count_append, hev]
    have : Frame.done ∉ [mid] := by simp [Ne.symm hmid_ne]
    simp [List.count_eq_zero.mpr this]
  · simp [List.getLast?_append, renderFrame]
  · simp only [List.map_append]
    rw [List.count_append, List.count_append]
    have h1 : ((events.map Frame.event).map renderFrame).count
        "data: [DONE]\n\n" = 0 := by
      rw [List.count_eq_zero]
      intro hmem
      exact hevr _ hmem rfl
    have h2 : ([mid].map renderFrame).count "data: [DONE]\n\n" = 0 := by
      rw [List.count_eq_zero]
      simp [Ne.symm hmid_render]
    rw [h1, h2]
    simp [renderFrame]

/-- Claim C9: every scripted streaming run emits the literal
`data: [DONE]\n\n` sentinel exactly once, as the final frame; and on
every run where the pipeline raises, the stream consists of the status
and chunk frames already emitted, exactly one `error` frame, no
`response` frame, and then the single sentinel — partial state is never
delivered as a success response. -/
theorem sse_stream_done_sentinel_error_shape (sess : String) (s : RunScript)
    (hjson : ∀ j ∈ s.events, j.data.head? = some (Char.ofNat 123)) :
    (sseEventStream sess s).getLast? = some Frame.done ∧
    (sseEventStream sess s).count Frame.done = 1 ∧
    ((sseEventStream sess s).map renderFrame).getLast? =
      some "data: [DONE]\n\n" ∧
    ((sseEventStream sess s).map renderFrame).count "data: [DONE]\n\n" = 1 ∧
    (∀ msg, s.outcome = .error msg →
      sseEventStream sess s =
        s.events.map Frame.event ++ [Frame.error msg, Frame.done] ∧
      ((sseEventStream sess s).filter Frame.isError).length = 1 ∧
      ((sseEventStream sess s).filter Frame.isResponse).length = 0) := by
  have hmain : (sseEventStream sess s).getLast? = some Frame.done ∧
      (sseEventStream sess s).count Frame.done = 1 ∧
      ((sseEventStream sess s).map renderFrame).getLast? =
        some "data: [DONE]\n\n" ∧
      ((sseEventStream sess s).map renderFrame).count "data: [DONE]\n\n" = 1 := by
    rcases houtcome : s.outcome with msg | ost
    · have he : sseEventStream sess s =
          s.events.map Frame.event ++ [Frame.error msg] ++ [Frame.done] := by
        simp [sseEventStream, houtcome]
      rw [he]
      exact sse_core s.events (Frame.error msg) hjson (by simp)
        (renderFrame_error_ne_done msg)
    · rcases ost with _ | st
      · rcases hfb : s.fallback with msg | st
        · have he : sseEventStream sess s =
              s.events.map Frame.event ++ [Frame.error msg] ++ [Frame.done] := by
            simp [sseEventStream, houtcome, hfb]
          rw [he]
          exact sse_core s.events (Frame.error msg) hjson (by simp)
            (renderFrame_error_ne_done msg)
        · have he : sseEventStream sess s =
              s.events.map Frame.event ++ [mkResponse sess st] ++ [Frame.done] := by
            simp [sseEventStream, houtcome, hfb]
          rw [he]
          exact sse_core s.events (mkResponse sess st) hjson
            (by simp [mkResponse]) (renderFrame_response_ne_done _ _ _ _ _)
      · have he : sseEventStream sess s =
            s.events.map Frame.event ++ [mkResponse sess st] ++ [Frame.done] := by
          simp [sseEventStream, houtcome]
        rw [he]
        exact sse_core s.events (mkResponse sess st) hjson
          (by simp [mkResponse]) (renderFrame_response_ne_done _ _ _ _ _)
  refine ⟨hmain.1, hmain.2.1, hmain.2.2.1, hmain.2.2.2, ?_⟩
  intro msg hmsg
  have he : sseEventStream sess s =
      s.events.map Frame.event ++ [Frame.error msg] ++ [Frame.done] := by
    simp [sseEventStream, hmsg]
  refine ⟨by rw [he]; simp, ?_, ?_⟩
  · rw [he]
    rw [List.filter_append, List.filter_append]
    have h1 : (s.events.map Frame.event).filter Frame.isError = [] := by
      simp [List.filter_eq_nil_iff, Frame.isError]
    simp [h1, Frame.isError]
  · rw [he]
    rw [List.filter_append, List.filter_append]
    have h1 : (s.events.map Frame.event).filter Frame.isResponse = [] := by
      simp [List.filter_eq_nil_iff, Frame.isResponse]
    simp [h1, Frame.isResponse]

theorem sse_stream_done_sentinel_error_shape_witness :
    (sseEventStream "sess" sampleScript).getLast? = some Frame.done ∧
    (sseEventStream "sess" sampleScript).count Frame.done = 1 ∧
    ((sseEventStream "sess" sampleScript).map renderFrame).getLast? =
      some "data: [DONE]\n\n" ∧
    ((sseEventStream "sess" sampleScript).map renderFrame).count
      "data: [DONE]\n\n" = 1 ∧
    (sseEventStream "sess" sampleScript =
      sampleScript.events.map Frame.event ++ [Frame.error "boom", Frame.done] ∧
      ((sseEventStream "sess" sampleScript).filter Frame.isError).length = 1 ∧
      ((sseEventStream "sess" sampleScript).filter Frame.isResponse).length = 0) := by
  have T := sse_stream_done_sentinel_error_shape "sess" sampleScript (by decide)
  exact ⟨T.1, T.2.1, T.2.2.1, T.2.2.2.1, T.2.2.2.2 "boom" rfl⟩

/-- Claim C1: the validator sets `is_satisfied` to true iff the review
text returned by the generation gateway contains the pass marker
(a case-insensitive substring search for `"pass"`), and the validator
is the only vertex that ever writes `is_satisfied`: every other vertex
leaves it unchanged. -/
theorem validator_pass_token_sole_writer (g : Oracle) (c c2 : Ctx) (cs : List Call) :
    (validationNode g c = .ok (c2, cs) →
      (c2.is_satisfied = true ↔
        pyIn "pass" (pyLower (validationReview g c)) = true)) ∧
    (∀ n : NodeName, n ≠ NodeName.validation → runNode n g c = .ok (c2, cs) →
      c2.is_satisfied = c.is_satisfied) := by
  constructor
  · intro h
    simp only [validationNode] at h
    repeat' split at h
    all_goals try exact Except.noConfusion h
    rw [Except.ok.injEq, Prod.mk.injEq] at h
    obtain ⟨h1, h2⟩ := h
    subst h1
    simp_all [validationReview]
  · intro n hn h
    exact (runNode_ok_shape n g c c2 cs h).2 hn

theorem validator_pass_token_sole_writer_witness :
    (sampleUnsatReviewed.is_satisfied = true ↔
      pyIn "pass" (pyLower (validationReview oraclePass sampleUnsat)) = true) ∧
    sampleSatNote.is_satisfied = sampleSat.is_satisfied :=
  ⟨(validator_pass_token_sole_writer oraclePass sampleUnsat sampleUnsatReviewed
      [Call.llm "validation" (PROMPT_VALIDATION "doc" "flow")]).1 rfl,
   (validator_pass_token_sole_writer oracleDoc sampleSat sampleSatNote []).2
     NodeName.processIteration (by decide) rfl⟩

end OpexAgent
